import Mathlib

/-!
# Verification of the `gallary` clustering orchestration engine

Shallow embedding of `src/model/app/routers/clustering.py` (HTTP router:
synchronous `perform_clustering`, asynchronous `run_clustering_async` with
its `report_progress` / `report_completion` / `report_failure` callbacks and
`get_clustering_status` polling) and of
`src/model/app/services/clustering_service.py` together with the gRPC
streaming wrapper `ClusterStream` in `src/model/app/grpc/server.py`.

External numerical collaborators (the `umap` reducer and the `hdbscan`
clusterer) are modelled as oracle parameters: the engine only observes the
label/probability arrays they return, and their possible exceptions.
Floating point values that the engine merely transports (probabilities,
`min_dist`, epsilon) are modelled as rationals; none of the verified
properties depends on float rounding.
-/

/-- `HDBSCANParams` request model (`clustering.py`, lines 28-34). -/
structure HDBSCANParams where
  min_cluster_size : Nat := 5
  min_samples : Option Nat := none
  cluster_selection_epsilon : ℚ := 0
  cluster_selection_method : String := "eom"
  metric : String := "cosine"
deriving Repr, DecidableEq

/-- `UMAPParams` request model (`clustering.py`, lines 37-42). -/
structure UMAPParams where
  enabled : Bool := false
  n_components : Nat := 50
  n_neighbors : Nat := 15
  min_dist : ℚ := 1/10
deriving Repr, DecidableEq

/-- `ClusteringRequest` (`clustering.py`, lines 45-50). `embeddings` is the
N×D matrix, `image_ids` the parallel list of integer ids. -/
structure ClusteringRequest where
  embeddings : List (List ℚ)
  image_ids : List Int
  hdbscan_params : HDBSCANParams := {}
  umap_params : UMAPParams := {}
deriving Repr, DecidableEq

/-- `ClusterResult` response model (`clustering.py`, lines 53-57). -/
structure ClusterResult where
  cluster_id : Int
  image_ids : List Int
  avg_probability : ℚ
deriving Repr, DecidableEq

/-- The keyword arguments passed to the `hdbscan.HDBSCAN` constructor
(`clustering.py`, lines 116-122).  The `params_used["hdbscan"]` dictionary of
the response is built from exactly the same five values (lines 160-166). -/
structure HDBSCANArgs where
  min_cluster_size : Nat
  min_samples : Option Nat
  cluster_selection_epsilon : ℚ
  cluster_selection_method : String
  metric : String
deriving Repr, DecidableEq

/-- The `params_used` dictionary of the response (`clustering.py`,
lines 159-168): the hdbscan group and the optional umap group
(`request.umap_params.model_dump()` when reduction was used, else `None`). -/
structure ParamsUsed where
  hdbscan : HDBSCANArgs
  umap : Option UMAPParams
deriving Repr, DecidableEq

/-- `ClusteringResponse` (`clustering.py`, lines 60-65). -/
structure ClusteringResponse where
  clusters : List ClusterResult
  noise_image_ids : List Int
  n_clusters : Nat
  params_used : ParamsUsed
deriving Repr, DecidableEq

/-- Errors surfaced by the synchronous route: `invalidInput` is the
`HTTPException(status_code=400, ...)` raised by the validation block
(lines 80-84); `internalError` is any uncaught exception propagating out of
the handler (umap non-ImportError failures, hdbscan failures). -/
inductive PipelineError where
  | invalidInput (detail : String)
  | internalError (detail : String)
deriving Repr, DecidableEq

/-- The keyword arguments passed to the `umap.UMAP` constructor
(`clustering.py`, lines 91-97). -/
structure UMAPArgs where
  n_components : Nat
  n_neighbors : Nat
  min_dist : ℚ
  metric : String
  random_state : Nat
deriving Repr, DecidableEq

/-- Oracle for the external `umap` library: either `import umap` raises
`ImportError` (`unavailable`), or the library is importable and
`UMAP(args).fit_transform(m)` behaves as the function `fit`, which may
raise a (non-ImportError) exception, modelled as `.error`. -/
inductive UmapEnv where
  | unavailable
  | available (fit : UMAPArgs → List (List ℚ) → Except String (List (List ℚ)))

/-- Oracle for the external `hdbscan` library: `HDBSCAN(args).fit_predict(m)`
followed by reading `clusterer.probabilities_`; element `i` of a successful
result is `(labels[i], probabilities[i])`. An exception is `.error`. -/
def HdbscanEnv : Type :=
  HDBSCANArgs → List (List ℚ) → Except String (List (Int × ℚ))

/-- `np.array(embeddings).shape[1]`: the common row length of the N×D
matrix (the request schema guarantees a rectangular matrix). -/
def vectorDim (embeddings : List (List ℚ)) : Nat :=
  (embeddings.headD []).length

/-- The effective UMAP constructor arguments (`clustering.py`, lines 92-96):
`n_components=min(requested, D)`, `n_neighbors=min(requested, N-1)`,
caller's `min_dist`, hard-coded `metric="cosine"` and `random_state=42`. -/
def effectiveUmapArgs (up : UMAPParams) (embeddings : List (List ℚ)) : UMAPArgs :=
  { n_components := min up.n_components (vectorDim embeddings)
    n_neighbors := min up.n_neighbors (embeddings.length - 1)
    min_dist := up.min_dist
    metric := "cosine"
    random_state := 42 }

/-- The optional UMAP reduction stage (`clustering.py`, lines 86-102).
Returns the (possibly reduced) matrix together with `some args` when the
reduction actually ran (`umap_actually_used = True`) and `none` otherwise.
Only `ImportError` (the `unavailable` environment) is swallowed by the
`except ImportError: pass` handler; any other exception propagates. -/
def reduceStage (uenv : UmapEnv) (up : UMAPParams) (embeddings : List (List ℚ)) :
    Except String (List (List ℚ) × Option UMAPArgs) :=
  if up.enabled ∧ embeddings.length > up.n_components then
    match uenv with
    | .unavailable => .ok (embeddings, none)
    | .available fit =>
      match fit (effectiveUmapArgs up embeddings) embeddings with
      | .ok reduced => .ok (reduced, some (effectiveUmapArgs up embeddings))
      | .error e => .error e
  else
    .ok (embeddings, none)

/-- `min_cluster_size = max(min(requested, len(embeddings) // 2), 2)`
(`clustering.py`, lines 106-107). -/
def effectiveMinClusterSize (requested n : Nat) : Nat :=
  max (min requested (n / 2)) 2

/-- `min_samples = min(requested, len(embeddings) - 1)` when requested,
else left `None` (`clustering.py`, lines 109-111). -/
def effectiveMinSamples (requested : Option Nat) (n : Nat) : Option Nat :=
  requested.map fun m => min m (n - 1)

/-- The effective HDBSCAN constructor arguments (`clustering.py`,
lines 106-122): clamped `min_cluster_size` and `min_samples`, the caller's
epsilon and selection method, and the metric forced to `"euclidean"` when
the reduction actually ran. `n` is `len(embeddings)` at that point. -/
def effectiveHdbscanArgs (hp : HDBSCANParams) (n : Nat) (umapUsed : Bool) : HDBSCANArgs :=
  { min_cluster_size := effectiveMinClusterSize hp.min_cluster_size n
    min_samples := effectiveMinSamples hp.min_samples n
    cluster_selection_epsilon := hp.cluster_selection_epsilon
    cluster_selection_method := hp.cluster_selection_method
    metric := if umapUsed then "euclidean" else hp.metric }

/-- Python's `round(x, 4)` on the rational transport values (ties differ
from binary-float half-even rounding, which no verified property uses). -/
def round4 (q : ℚ) : ℚ :=
  (round (q * 10000) : ℤ) / 10000

/-- Appends one `(image_id, probability)` pair to the bucket of `label` in
the insertion-ordered association list that models the Python `dict`
`clusters_dict` (`clustering.py`, lines 136-139): a missing key is appended
at the end, an existing key keeps its position and grows its list. -/
def addPoint (acc : List (Int × List (Int × ℚ))) (label : Int) (item : Int × ℚ) :
    List (Int × List (Int × ℚ)) :=
  match acc with
  | [] => [(label, [item])]
  | (k, items) :: rest =>
    if k = label then (k, items ++ [item]) :: rest
    else (k, items) :: addPoint rest label item

/-- One iteration of the `for idx, label in enumerate(labels)` loop
(`clustering.py`, lines 131-139): the point is `(image_id, (label, prob))`;
label `-1` goes to the noise list, anything else into `clusters_dict`. -/
def splitStep (acc : List (Int × List (Int × ℚ)) × List Int) (p : Int × Int × ℚ) :
    List (Int × List (Int × ℚ)) × List Int :=
  if p.2.1 = -1 then (acc.1, acc.2 ++ [p.1])
  else (addPoint acc.1 p.2.1 (p.1, p.2.2), acc.2)

/-- The whole grouping loop (`clustering.py`, lines 128-139): returns the
insertion-ordered `clusters_dict` and the `noise_ids` list. -/
def splitPoints (points : List (Int × Int × ℚ)) :
    List (Int × List (Int × ℚ)) × List Int :=
  points.foldl splitStep ([], [])

/-- Builds one `ClusterResult` from a `clusters_dict` entry
(`clustering.py`, lines 143-151): member ids in insertion order,
`avg_probability = round(sum(probs)/len(probs) if probs else 0.0, 4)`. -/
def mkClusterResult (entry : Int × List (Int × ℚ)) : ClusterResult :=
  let probs := entry.2.map Prod.snd
  { cluster_id := entry.1
    image_ids := entry.2.map Prod.fst
    avg_probability := round4 (if probs = [] then 0 else probs.sum / probs.length) }

/-- The unsorted `cluster_results` list in `clusters_dict` insertion order
(first appearance of each non-noise label). -/
def preClusters (image_ids : List Int) (labelProbs : List (Int × ℚ)) :
    List ClusterResult :=
  (splitPoints (image_ids.zip labelProbs)).1.map mkClusterResult

/-- `cluster_results.sort(key=lambda x: len(x.image_ids), reverse=True)`
(`clustering.py`, line 153): Python's sort is stable, and `reverse=True`
keeps the original relative order of equal keys, so the result is THE
stable sort under the total preorder "`b` has at most as many members as
`a`" — realised here by `List.insertionSort`, which is stable for the same
preorder (a stable sort of a list under a total preorder is unique, so any
stable implementation is the same function). -/
def sortClusters (cs : List ClusterResult) : List ClusterResult :=
  List.insertionSort (fun a b => b.image_ids.length ≤ a.image_ids.length) cs

/-- Assembles the `ClusteringResponse` from the clusterer output
(`clustering.py`, lines 128-169). `umapEntry` is the `params_used["umap"]`
value (`model_dump()` of the raw request params, or `None`). -/
def assembleResponse (image_ids : List Int) (labelProbs : List (Int × ℚ))
    (args : HDBSCANArgs) (umapEntry : Option UMAPParams) : ClusteringResponse :=
  let sorted := sortClusters (preClusters image_ids labelProbs)
  { clusters := sorted
    noise_image_ids := (splitPoints (image_ids.zip labelProbs)).2
    n_clusters := sorted.length
    params_used := { hdbscan := args, umap := umapEntry } }

/-- The synchronous route handler `perform_clustering` (`clustering.py`,
lines 68-169): validation, optional reduction, parameter clamping, the
clusterer call, and result assembly. -/
def performClustering (uenv : UmapEnv) (henv : HdbscanEnv)
    (req : ClusteringRequest) : Except PipelineError ClusteringResponse :=
  if req.embeddings.length ≠ req.image_ids.length then
    .error (.invalidInput "embeddings 和 image_ids 长度不一致")
  else if req.embeddings.length < 2 then
    .error (.invalidInput "至少需要 2 个样本进行聚类")
  else
    match reduceStage uenv req.umap_params req.embeddings with
    | .error e => .error (.internalError e)
    | .ok (emb, usedArgs) =>
      match henv (effectiveHdbscanArgs req.hdbscan_params emb.length usedArgs.isSome) emb with
      | .error e => .error (.internalError e)
      | .ok labelProbs =>
        .ok (assembleResponse req.image_ids labelProbs
              (effectiveHdbscanArgs req.hdbscan_params emb.length usedArgs.isSome)
              (if usedArgs.isSome then some req.umap_params else none))

/-- The umap oracle respects the library contract that `fit_transform`
returns one row per input row. -/
def UmapEnv.preservesLength : UmapEnv → Prop
  | .unavailable => True
  | .available fit => ∀ args m r, fit args m = .ok r → r.length = m.length

/-- The hdbscan oracle respects the library contract that `fit_predict`
and `probabilities_` have one entry per input row. -/
def HdbscanEnv.matchesLength (henv : HdbscanEnv) : Prop :=
  ∀ args m r, henv args m = .ok r → r.length = m.length

/-- The in-memory job record stored in `task_store` (`clustering.py`,
lines 210-219). -/
structure TaskRecord where
  status : String
  progress : Nat
  message : String
  go_task_id : Int
  callback_url : String
  result : Option ClusteringResponse
  error : Option String
deriving Repr, DecidableEq

/-- The JSON body POSTed to the caller's callback URL by the three
`report_*` helpers (`clustering.py`, lines 370-433).  Delivery is
best-effort: an HTTP failure is only logged, so the list of payloads below
is the list of attempted deliveries, in order. -/
structure CallbackPayload where
  status : String
  progress : Nat
  message : String
  result : Option ClusteringResponse := none
  error : Option String := none
deriving Repr, DecidableEq

/-- `report_progress` (`clustering.py`, lines 357-380): updates the job
record's `status`, `progress` and `message`, then POSTs the same values. -/
def reportProgress (t : TaskRecord) (status : String) (progress : Nat)
    (message : String) : TaskRecord × CallbackPayload :=
  ({ t with status := status, progress := progress, message := message },
   { status := status, progress := progress, message := message })

/-- `report_completion` (`clustering.py`, lines 383-408): stores
`completed/100` plus the result, and POSTs the same values. -/
def reportCompletion (t : TaskRecord) (result : ClusteringResponse) :
    TaskRecord × CallbackPayload :=
  ({ t with status := "completed", progress := 100, message := "聚类完成",
            result := some result },
   { status := "completed", progress := 100, message := "聚类完成",
     result := some result })

/-- `report_failure` (`clustering.py`, lines 411-435): stores `failed`,
the error and a message — it does NOT touch `progress` or `result` — and
POSTs a payload whose `progress` field is the literal `0`. -/
def reportFailure (t : TaskRecord) (error : String) :
    TaskRecord × CallbackPayload :=
  ({ t with status := "failed", error := some error,
            message := "聚类失败: " ++ error },
   { status := "failed", progress := 0, message := "聚类失败: " ++ error,
     error := some error })

/-- The background body `run_clustering_async` (`clustering.py`,
lines 244-354).  It duplicates the synchronous pipeline (the duplicated
Python blocks are embedded once, via `reduceStage` / `effectiveHdbscanArgs`
/ `assembleResponse`), emitting the 10/30/60/90 progress checkpoints and
ending with `report_completion` or — for ANY caught exception, including
the validation `ValueError`s — `report_failure`.  Note the first progress
report happens before validation.  Returns the final job record and the
ordered list of attempted callback deliveries. -/
def runClusteringAsync (uenv : UmapEnv) (henv : HdbscanEnv)
    (req : ClusteringRequest) (t0 : TaskRecord) :
    TaskRecord × List CallbackPayload :=
  let s1 := reportProgress t0 "clustering" 10 "开始聚类计算"
  if req.embeddings.length ≠ req.image_ids.length then
    let s2 := reportFailure s1.1 "embeddings 和 image_ids 长度不一致"
    (s2.1, [s1.2, s2.2])
  else if req.embeddings.length < 2 then
    let s2 := reportFailure s1.1 "至少需要 2 个样本进行聚类"
    (s2.1, [s1.2, s2.2])
  else
    let s2 :=
      if req.umap_params.enabled ∧ req.embeddings.length > req.umap_params.n_components then
        let p := reportProgress s1.1 "clustering" 30 "UMAP 降维中"
        (p.1, [s1.2, p.2])
      else (s1.1, [s1.2])
    match reduceStage uenv req.umap_params req.embeddings with
    | .error e =>
      let sf := reportFailure s2.1 e
      (sf.1, s2.2 ++ [sf.2])
    | .ok (emb, usedArgs) =>
      let s3 := reportProgress s2.1 "clustering" 60 "HDBSCAN 聚类中"
      let args := effectiveHdbscanArgs req.hdbscan_params emb.length usedArgs.isSome
      match henv args emb with
      | .error e =>
        let sf := reportFailure s3.1 e
        (sf.1, s2.2 ++ [s3.2, sf.2])
      | .ok labelProbs =>
        let s4 := reportProgress s3.1 "clustering" 90 "整理聚类结果"
        let resp := assembleResponse req.image_ids labelProbs args
          (if usedArgs.isSome then some req.umap_params else none)
        let s5 := reportCompletion s4.1 resp
        (s5.1, s2.2 ++ [s3.2, s4.2, s5.2])

/-- `TaskStatusResponse` (`clustering.py`, lines 190-197). -/
structure TaskStatusResponse where
  task_id : String
  status : String
  progress : Nat
  message : String
  result : Option ClusteringResponse
  error : Option String
deriving Repr, DecidableEq

/-- `get_clustering_status` (`clustering.py`, lines 227-241): a read-only
lookup in `task_store`; unknown ids give the 404 error. -/
def getClusteringStatus (store : List (String × TaskRecord)) (task_id : String) :
    Except String TaskStatusResponse :=
  match store.lookup task_id with
  | none => .error ("任务 " ++ task_id ++ " 不存在")
  | some t =>
    .ok { task_id := task_id, status := t.status, progress := t.progress,
          message := t.message, result := t.result, error := t.error }

/-- `ProgressInfo` of the service layer (`clustering_service.py`,
lines 53-58), which is also the shape of the gRPC `ProgressUpdate`
stream items that matter here. -/
structure ProgressInfo where
  status : String
  progress : Nat
  message : String
deriving Repr, DecidableEq

/-- The service-layer `HDBSCANParams` (`clustering_service.py`,
lines 18-24): unlike the HTTP model it has NO `metric` field. -/
structure ServiceHDBSCANParams where
  min_cluster_size : Nat := 5
  min_samples : Option Nat := none
  cluster_selection_epsilon : ℚ := 0
  cluster_selection_method : String := "eom"
deriving Repr, DecidableEq

/-- The service layer's HDBSCAN constructor arguments
(`clustering_service.py`, lines 125-139): same clamping as the router,
metric hard-coded to `"euclidean"`. -/
def serviceHdbscanArgs (hp : ServiceHDBSCANParams) (n : Nat) : HDBSCANArgs :=
  { min_cluster_size := effectiveMinClusterSize hp.min_cluster_size n
    min_samples := effectiveMinSamples hp.min_samples n
    cluster_selection_epsilon := hp.cluster_selection_epsilon
    cluster_selection_method := hp.cluster_selection_method
    metric := "euclidean" }

/-- Tail of `ClusteringService.cluster` from the 60% checkpoint on
(`clustering_service.py`, lines 122-194): parameter clamping, the
clusterer call with the metric hard-coded to `"euclidean"`, and assembly
(identical to the router's, with `params_used["umap"]` an explicit dict of
the raw caller values when reduction ran). -/
def serviceClusterTail (henv : HdbscanEnv) (image_ids : List Int)
    (hp : ServiceHDBSCANParams) (up : UMAPParams) (emb : List (List ℚ))
    (umapUsed : Bool) : List ProgressInfo × Except String ClusteringResponse :=
  match henv (serviceHdbscanArgs hp emb.length) emb with
  | .error e => ([⟨"clustering", 60, "HDBSCAN 聚类中"⟩], .error e)
  | .ok labelProbs =>
    ([⟨"clustering", 60, "HDBSCAN 聚类中"⟩, ⟨"clustering", 90, "整理聚类结果"⟩],
     .ok (assembleResponse image_ids labelProbs (serviceHdbscanArgs hp emb.length)
           (if umapUsed then some up else none)))

/-- `ClusteringService.cluster` (`clustering_service.py`, lines 72-194)
run with the gRPC handler's collecting callback: returns the list of
progress infos handed to the sink, in order, and the result or the
propagated exception.  The 10% report precedes validation; the umap stage
has no `try` at all (the module imports `umap` at top level), so every
reducer failure propagates. -/
def serviceCluster (ufit : UMAPArgs → List (List ℚ) → Except String (List (List ℚ)))
    (henv : HdbscanEnv) (embeddings : List (List ℚ)) (image_ids : List Int)
    (hp : ServiceHDBSCANParams) (up : UMAPParams) :
    List ProgressInfo × Except String ClusteringResponse :=
  let e1 : ProgressInfo := ⟨"clustering", 10, "开始聚类计算"⟩
  if embeddings.length ≠ image_ids.length then
    ([e1], .error "embeddings 和 image_ids 长度不一致")
  else if embeddings.length < 2 then
    ([e1], .error "至少需要 2 个样本进行聚类")
  else if up.enabled ∧ embeddings.length > up.n_components then
    let e2 : ProgressInfo := ⟨"clustering", 30, "UMAP 降维中"⟩
    match ufit (effectiveUmapArgs up embeddings) embeddings with
    | .error e => ([e1, e2], .error e)
    | .ok emb =>
      let tail := serviceClusterTail henv image_ids hp up emb true
      ([e1, e2] ++ tail.1, tail.2)
  else
    let tail := serviceClusterTail henv image_ids hp up embeddings false
    ([e1] ++ tail.1, tail.2)

/-- The event sequence yielded by the gRPC `ClusterStream` handler
(`server.py`, lines 351-440): the collected progress infos followed by a
single terminal item — `completed/100` on success, `failed/0` with the
exception message on failure. -/
def clusterStreamEvents (ufit : UMAPArgs → List (List ℚ) → Except String (List (List ℚ)))
    (henv : HdbscanEnv) (embeddings : List (List ℚ)) (image_ids : List Int)
    (hp : ServiceHDBSCANParams) (up : UMAPParams) : List ProgressInfo :=
  match serviceCluster ufit henv embeddings image_ids hp up with
  | (evs, .ok _) => evs ++ [⟨"completed", 100, "聚类完成"⟩]
  | (evs, .error e) => evs ++ [⟨"failed", 0, "聚类失败: " ++ e⟩]

/-! ## Helper lemmas -/

/-- Total number of `(image_id, probability)` pairs stored across all
buckets of the insertion-ordered `clusters_dict`. -/
def bucketSizes (assoc : List (Int × List (Int × ℚ))) : Nat :=
  (assoc.map fun e => e.2.length).sum

theorem addPoint_bucketSizes (acc : List (Int × List (Int × ℚ)))
    (label : Int) (item : Int × ℚ) :
    bucketSizes (addPoint acc label item) = bucketSizes acc + 1 := by
  induction acc with
  | nil => simp [addPoint, bucketSizes]
  | cons hd tl ih =>
    obtain ⟨k, items⟩ := hd
    by_cases hk : k = label
    · simp [addPoint, hk, bucketSizes, List.length_append]
      omega
    · simp only [addPoint, if_neg hk, bucketSizes, List.map_cons, List.sum_cons]
      simp only [bucketSizes] at ih
      omega

theorem foldl_splitStep_size (points : List (Int × Int × ℚ)) :
    ∀ acc : List (Int × List (Int × ℚ)) × List Int,
      bucketSizes (points.foldl splitStep acc).1
        + (points.foldl splitStep acc).2.length
      = bucketSizes acc.1 + acc.2.length + points.length := by
  induction points with
  | nil => intro acc; simp
  | cons p ps ih =>
    intro acc
    rw [List.foldl_cons, ih]
    unfold splitStep
    by_cases hp : p.2.1 = -1
    · simp [hp]
      omega
    · simp [hp, addPoint_bucketSizes]
      omega

theorem splitPoints_partition (points : List (Int × Int × ℚ)) :
    bucketSizes (splitPoints points).1 + (splitPoints points).2.length
      = points.length := by
  have := foldl_splitStep_size points ([], [])
  simpa [splitPoints, bucketSizes] using this

theorem preClusters_sizes_sum (image_ids : List Int) (labelProbs : List (Int × ℚ)) :
    ((preClusters image_ids labelProbs).map fun c => c.image_ids.length).sum
      = bucketSizes (splitPoints (image_ids.zip labelProbs)).1 := by
  unfold preClusters bucketSizes
  rw [List.map_map]
  have hfun : ((fun c : ClusterResult => c.image_ids.length) ∘ mkClusterResult)
      = fun e : Int × List (Int × ℚ) => e.2.length := by
    funext e
    simp [mkClusterResult]
  rw [hfun]

theorem sortClusters_perm (cs : List ClusterResult) :
    List.Perm (sortClusters cs) cs :=
  List.perm_insertionSort _ cs

theorem sortClusters_sizes_sum (cs : List ClusterResult)
    (f : ClusterResult → Nat) :
    ((sortClusters cs).map f).sum = (cs.map f).sum :=
  ((sortClusters_perm cs).map f).sum_eq

theorem reduceStage_length {uenv : UmapEnv} {up : UMAPParams}
    {embs emb : List (List ℚ)} {ua : Option UMAPArgs}
    (hu : uenv.preservesLength)
    (h : reduceStage uenv up embs = .ok (emb, ua)) : emb.length = embs.length := by
  unfold reduceStage at h
  by_cases hc : up.enabled = true ∧ embs.length > up.n_components
  · rw [if_pos hc] at h
    cases uenv with
    | unavailable =>
      simp only [Except.ok.injEq, Prod.mk.injEq] at h
      rw [← h.1]
    | available fit =>
      dsimp only at h
      cases hfit : fit (effectiveUmapArgs up embs) embs with
      | ok r =>
        rw [hfit] at h
        simp only [Except.ok.injEq, Prod.mk.injEq] at h
        rw [← h.1]
        exact hu (effectiveUmapArgs up embs) embs r hfit
      | error e =>
        rw [hfit] at h
        simp at h
  · rw [if_neg hc] at h
    simp only [Except.ok.injEq, Prod.mk.injEq] at h
    rw [← h.1]

/-- Inversion principle for a successful synchronous invocation: the
validation passed, the reduction stage and the clusterer returned `ok`,
and the response is the assembly of their outputs. -/
theorem performClustering_ok_elim {uenv : UmapEnv} {henv : HdbscanEnv}
    {req : ClusteringRequest} {resp : ClusteringResponse}
    (h : performClustering uenv henv req = .ok resp) :
    req.embeddings.length = req.image_ids.length ∧
    2 ≤ req.embeddings.length ∧
    ∃ emb ua labelProbs,
      reduceStage uenv req.umap_params req.embeddings = .ok (emb, ua) ∧
      henv (effectiveHdbscanArgs req.hdbscan_params emb.length ua.isSome) emb
        = .ok labelProbs ∧
      resp = assembleResponse req.image_ids labelProbs
        (effectiveHdbscanArgs req.hdbscan_params emb.length ua.isSome)
        (if ua.isSome then some req.umap_params else none) := by
  unfold performClustering at h
  by_cases h1 : req.embeddings.length ≠ req.image_ids.length
  · rw [if_pos h1] at h
    simp at h
  rw [if_neg h1] at h
  by_cases h2 : req.embeddings.length < 2
  · rw [if_pos h2] at h
    simp at h
  rw [if_neg h2] at h
  cases hred : reduceStage uenv req.umap_params req.embeddings with
  | error e =>
    rw [hred] at h
    simp at h
  | ok p =>
    obtain ⟨emb, ua⟩ := p
    rw [hred] at h
    dsimp only at h
    cases hcl : henv (effectiveHdbscanArgs req.hdbscan_params emb.length ua.isSome) emb with
    | error e =>
      rw [hcl] at h
      simp at h
    | ok lps =>
      rw [hcl] at h
      simp only [Except.ok.injEq] at h
      exact ⟨not_ne_iff.mp h1, by omega, emb, ua, lps, rfl, hcl, h.symm⟩

/-! ## C1: every point lands in exactly one bucket -/

/-- **C1.** For every accepted input (equal lengths, `N ≥ 2`) and
well-behaved external libraries (one output row per input row), every
completed synchronous invocation partitions the `N` points: the sum of the
member counts of the returned clusters plus the number of noise ids equals
`N`. -/
theorem perform_clustering_partitions_points
    (uenv : UmapEnv) (henv : HdbscanEnv) (req : ClusteringRequest)
    (resp : ClusteringResponse)
    (hu : uenv.preservesLength) (hh : henv.matchesLength)
    (h : performClustering uenv henv req = .ok resp) :
    (resp.clusters.map fun c => c.image_ids.length).sum
      + resp.noise_image_ids.length = req.embeddings.length := by
  obtain ⟨hlen, h2, emb, ua, lps, hred, hcl, hresp⟩ := performClustering_ok_elim h
  have hemb : emb.length = req.embeddings.length := reduceStage_length hu hred
  have hlps : lps.length = emb.length := hh _ _ _ hcl
  subst hresp
  show ((sortClusters (preClusters req.image_ids lps)).map
          fun c => c.image_ids.length).sum
        + (splitPoints (req.image_ids.zip lps)).2.length
      = req.embeddings.length
  rw [sortClusters_sizes_sum, preClusters_sizes_sum, splitPoints_partition]
  rw [List.length_zip]
  omega

/-- Degenerate response used to extract a concrete value out of `Except`. -/
def respDefault : ClusteringResponse :=
  { clusters := []
    noise_image_ids := []
    n_clusters := 0
    params_used :=
      { hdbscan :=
          { min_cluster_size := 2, min_samples := none,
            cluster_selection_epsilon := 0, cluster_selection_method := "eom",
            metric := "cosine" }
        umap := none } }

/-- Clusterer oracle that assigns every point to cluster `0` with
probability `1`. -/
def henvAllZero : HdbscanEnv :=
  fun _ m => .ok (m.map fun _ => ((0 : Int), (1 : ℚ)))

/-- A four-point request with no reduction requested. -/
def reqFour : ClusteringRequest :=
  { embeddings := [[0], [0], [1], [1]], image_ids := [1, 2, 3, 4] }

theorem perform_clustering_partitions_points_witness :
    ((((performClustering .unavailable henvAllZero reqFour).toOption.getD
        respDefault).clusters.map fun c => c.image_ids.length).sum
      + ((performClustering .unavailable henvAllZero reqFour).toOption.getD
          respDefault).noise_image_ids.length = reqFour.embeddings.length) :=
  perform_clustering_partitions_points .unavailable henvAllZero reqFour
    ((performClustering .unavailable henvAllZero reqFour).toOption.getD respDefault)
    trivial
    (by
      intro args m r hr
      simp only [henvAllZero, Except.ok.injEq] at hr
      rw [← hr]
      simp)
    (by rfl)

/-! ## C3: the effective `min_cluster_size` -/

/-- A two-point request asking for `min_cluster_size = 5`. -/
def reqTwo : ClusteringRequest :=
  { embeddings := [[0], [0]], image_ids := [1, 2],
    hdbscan_params := { min_cluster_size := 5 } }

/-- **C3, counterexample.** With `N = 2` (an accepted input) the effective
`min_cluster_size` is `2`, which is strictly greater than
`floor(N/2) = 1`: the claimed bound `min_cluster_size ≤ floor(N/2)` fails. -/
theorem min_cluster_size_exceeds_half_ce :
    ((performClustering .unavailable henvAllZero reqTwo).toOption.getD
        respDefault).params_used.hdbscan.min_cluster_size = 2
    ∧ ¬(((performClustering .unavailable henvAllZero reqTwo).toOption.getD
        respDefault).params_used.hdbscan.min_cluster_size
          ≤ reqTwo.embeddings.length / 2) := by
  constructor
  · rfl
  · decide

/-- **C3, amended.** The effective `min_cluster_size` passed to the
clusterer and recorded in `params_used` equals
`max(min(requested, floor(N/2)), 2)`; it is always `≥ 2`, and it is
`≤ floor(N/2)` whenever `N ≥ 4` (for `N ∈ {2,3}` the lower clamp to `2`
wins and the value exceeds `floor(N/2)`). -/
theorem min_cluster_size_clamp
    (uenv : UmapEnv) (henv : HdbscanEnv) (req : ClusteringRequest)
    (resp : ClusteringResponse)
    (hu : uenv.preservesLength)
    (h : performClustering uenv henv req = .ok resp) :
    resp.params_used.hdbscan.min_cluster_size
      = max (min req.hdbscan_params.min_cluster_size (req.embeddings.length / 2)) 2
    ∧ 2 ≤ resp.params_used.hdbscan.min_cluster_size
    ∧ (4 ≤ req.embeddings.length →
        resp.params_used.hdbscan.min_cluster_size ≤ req.embeddings.length / 2) := by
  obtain ⟨hlen, h2, emb, ua, lps, hred, hcl, hresp⟩ := performClustering_ok_elim h
  have hemb : emb.length = req.embeddings.length := reduceStage_length hu hred
  subst hresp
  have hval : (assembleResponse req.image_ids lps
      (effectiveHdbscanArgs req.hdbscan_params emb.length ua.isSome)
      (if ua.isSome then some req.umap_params
       else none)).params_used.hdbscan.min_cluster_size
      = max (min req.hdbscan_params.min_cluster_size (req.embeddings.length / 2)) 2 := by
    simp [assembleResponse, effectiveHdbscanArgs, effectiveMinClusterSize, hemb]
  refine ⟨hval, ?_, ?_⟩ <;> rw [hval] <;> omega

/-- A ten-point request asking for `min_cluster_size = 1000`. -/
def reqTen : ClusteringRequest :=
  { embeddings := [[0], [0], [0], [0], [0], [1], [1], [1], [1], [1]],
    image_ids := [1, 2, 3, 4, 5, 6, 7, 8, 9, 10],
    hdbscan_params := { min_cluster_size := 1000 } }

theorem min_cluster_size_clamp_witness :
    ((performClustering .unavailable henvAllZero reqTen).toOption.getD
        respDefault).params_used.hdbscan.min_cluster_size
      = max (min reqTen.hdbscan_params.min_cluster_size
              (reqTen.embeddings.length / 2)) 2
    ∧ 2 ≤ ((performClustering .unavailable henvAllZero reqTen).toOption.getD
        respDefault).params_used.hdbscan.min_cluster_size
    ∧ (4 ≤ reqTen.embeddings.length →
        ((performClustering .unavailable henvAllZero reqTen).toOption.getD
          respDefault).params_used.hdbscan.min_cluster_size
          ≤ reqTen.embeddings.length / 2) :=
  min_cluster_size_clamp .unavailable henvAllZero reqTen
    ((performClustering .unavailable henvAllZero reqTen).toOption.getD respDefault)
    trivial (by rfl)

/-! ## C2: cluster ordering -/

/-- The ordering the spec claims: strictly larger first, ties in ascending
numeric cluster id. -/
def specOrderPair (a b : ClusterResult) : Bool :=
  decide (b.image_ids.length < a.image_ids.length) ||
    (decide (a.image_ids.length = b.image_ids.length)
      && decide (a.cluster_id < b.cluster_id))

/-- Adjacent-pairs check of the spec's claimed cluster ordering. -/
def specOrderedB : List ClusterResult → Bool
  | a :: b :: rest => specOrderPair a b && specOrderedB (b :: rest)
  | _ => true

/-- Clusterer oracle returning labels `[1, 1, 0, 0]`, all with
probability `1` (hdbscan does not promise labels ordered by first
appearance). -/
def henvTie : HdbscanEnv :=
  fun _ _ => .ok [(1, 1), (1, 1), (0, 1), (0, 1)]

/-- Four points whose labels produce two equal-size clusters, the larger
label seen first. -/
def reqTie : ClusteringRequest :=
  { embeddings := [[0], [0], [1], [1]], image_ids := [10, 20, 30, 40] }

/-- **C2, counterexample.** A run producing two clusters of equal size with
ids `1` (first appearance first) and `0`: the returned order is `[1, 0]`,
not the ascending-id order `[0, 1]` the spec claims for ties. -/
theorem clusters_tie_ascending_id_ce :
    (((performClustering .unavailable henvTie reqTie).toOption.getD
        respDefault).clusters.map fun c => (c.cluster_id, c.image_ids.length))
      = [(1, 2), (0, 2)]
    ∧ specOrderedB ((performClustering .unavailable henvTie reqTie).toOption.getD
        respDefault).clusters = false := by
  constructor
  · decide
  · decide

theorem sortClusters_sorted (cs : List ClusterResult) :
    (sortClusters cs).Pairwise
      fun x y => y.image_ids.length ≤ x.image_ids.length := by
  haveI : IsTotal ClusterResult
      (fun a b => b.image_ids.length ≤ a.image_ids.length) :=
    ⟨fun a b => Nat.le_total _ _⟩
  haveI : IsTrans ClusterResult
      (fun a b => b.image_ids.length ≤ a.image_ids.length) :=
    ⟨fun a b c hab hbc => le_trans hbc hab⟩
  exact List.sorted_insertionSort _ cs

/-- **C2, amended.** The returned clusters are sorted by descending member
count; clusters with equal member counts appear in the order in which
their labels first appear among the points (Python `dict` insertion order
preserved by the stable sort), not in ascending id order.  The second
conjunct is the stability of the sort the route applies: any two
equal-size clusters keep their relative order. -/
theorem clusters_sorted_desc_stable
    (uenv : UmapEnv) (henv : HdbscanEnv) (req : ClusteringRequest)
    (resp : ClusteringResponse) (cs : List ClusterResult) (a b : ClusterResult)
    (h : performClustering uenv henv req = .ok resp)
    (hab : List.Sublist [a, b] cs)
    (heq : a.image_ids.length = b.image_ids.length) :
    resp.clusters.Pairwise
      (fun x y => y.image_ids.length ≤ x.image_ids.length)
    ∧ List.Sublist [a, b] (sortClusters cs) := by
  obtain ⟨hlen, h2, emb, ua, lps, hred, hcl, hresp⟩ := performClustering_ok_elim h
  subst hresp
  constructor
  · exact sortClusters_sorted _
  · exact List.pair_sublist_insertionSort (le_of_eq heq.symm) hab

def cTieA : ClusterResult := { cluster_id := 1, image_ids := [10, 20], avg_probability := 1 }

def cTieB : ClusterResult := { cluster_id := 0, image_ids := [30, 40], avg_probability := 1 }

theorem clusters_sorted_desc_stable_witness :
    ((performClustering .unavailable henvTie reqTie).toOption.getD
        respDefault).clusters.Pairwise
      (fun x y => y.image_ids.length ≤ x.image_ids.length)
    ∧ List.Sublist [cTieA, cTieB] (sortClusters [cTieA, cTieB]) :=
  clusters_sorted_desc_stable .unavailable henvTie reqTie
    ((performClustering .unavailable henvTie reqTie).toOption.getD respDefault)
    [cTieA, cTieB] cTieA cTieB (by rfl) (List.Sublist.refl _) (by rfl)

/-! ## C4: `params_used` vs effective values -/

/-- A reducer that always succeeds, projecting every row to 3 columns. -/
def ufitConst : UMAPArgs → List (List ℚ) → Except String (List (List ℚ)) :=
  fun _ m => .ok (m.map fun _ => [0, 0, 0])

/-- Five 3-dimensional points with reduction enabled and
`n_components = 4 > D = 3`, `n_neighbors = 10 > N - 1 = 4`. -/
def reqRed : ClusteringRequest :=
  { embeddings := [[0, 0, 0], [0, 0, 0], [0, 0, 0], [1, 1, 1], [1, 1, 1]],
    image_ids := [1, 2, 3, 4, 5],
    umap_params := { enabled := true, n_components := 4, n_neighbors := 10 } }

/-- **C4, counterexample.** When the reduction runs, `params_used["umap"]`
is `request.umap_params.model_dump()` — the caller's RAW values — while
the value actually handed to the reducer was clamped: the response records
`n_components = 4` although the reducer was constructed with
`n_components = min(4, 3) = 3`. -/
theorem params_used_umap_raw_ce :
    (((performClustering (.available ufitConst) henvAllZero reqRed).toOption.getD
        respDefault).params_used.umap.map fun u => u.n_components) = some 4
    ∧ (((reduceStage (.available ufitConst) reqRed.umap_params
          reqRed.embeddings).toOption.getD ([], none)).2.map
        fun a => a.n_components) = some 3
    ∧ (4 : Nat) ≠ 3 := by
  refine ⟨by decide, by decide, by decide⟩

/-- **C4, amended.** `params_used` echoes the effective post-clamp values
for the clustering group (and correctly reports `null` after a skip or
fallback), but when reduction IS used the reduction group echoes the
caller's raw requested record, not the clamped values actually applied. -/
theorem params_used_effective
    (uenv : UmapEnv) (henv : HdbscanEnv) (req : ClusteringRequest)
    (resp : ClusteringResponse) (emb : List (List ℚ)) (ua : Option UMAPArgs)
    (hred : reduceStage uenv req.umap_params req.embeddings = .ok (emb, ua))
    (h : performClustering uenv henv req = .ok resp) :
    resp.params_used.hdbscan
      = effectiveHdbscanArgs req.hdbscan_params emb.length ua.isSome
    ∧ resp.params_used.umap
      = (if ua.isSome then some req.umap_params else none) := by
  obtain ⟨hlen, h2, emb', ua', lps, hred', hcl, hresp⟩ := performClustering_ok_elim h
  rw [hred] at hred'
  simp only [Except.ok.injEq, Prod.mk.injEq] at hred'
  obtain ⟨he, hu2⟩ := hred'
  subst he
  subst hu2
  subst hresp
  exact ⟨rfl, rfl⟩

/-- The matrix/flag pair the reduction stage produces on `reqRed`. -/
def redPairC4 : List (List ℚ) × Option UMAPArgs :=
  (reduceStage (.available ufitConst) reqRed.umap_params
    reqRed.embeddings).toOption.getD ([], none)

theorem params_used_effective_witness :
    ((performClustering (.available ufitConst) henvAllZero reqRed).toOption.getD
        respDefault).params_used.hdbscan
      = effectiveHdbscanArgs reqRed.hdbscan_params redPairC4.1.length
          redPairC4.2.isSome
    ∧ ((performClustering (.available ufitConst) henvAllZero reqRed).toOption.getD
        respDefault).params_used.umap
      = (if redPairC4.2.isSome then some reqRed.umap_params else none) :=
  params_used_effective (.available ufitConst) henvAllZero reqRed
    ((performClustering (.available ufitConst) henvAllZero reqRed).toOption.getD
      respDefault)
    redPairC4.1 redPairC4.2 (by rfl) (by rfl)

/-! ## C5: the clustering metric -/

/-- **C5.** The metric passed to the clusterer — which is the same record
field echoed in `params_used` — is `"euclidean"` exactly when the
reduction actually ran, and the caller's requested metric otherwise.
(This is the HTTP route; the service layer used by the gRPC path has no
caller-facing metric at all and always clusters with `"euclidean"`.) -/
theorem metric_follows_reduction
    (uenv : UmapEnv) (henv : HdbscanEnv) (req : ClusteringRequest)
    (resp : ClusteringResponse) (emb : List (List ℚ)) (ua : Option UMAPArgs)
    (hred : reduceStage uenv req.umap_params req.embeddings = .ok (emb, ua))
    (h : performClustering uenv henv req = .ok resp) :
    resp.params_used.hdbscan.metric
      = (if ua.isSome then "euclidean" else req.hdbscan_params.metric) := by
  obtain ⟨hlen, h2, emb', ua', lps, hred', hcl, hresp⟩ := performClustering_ok_elim h
  rw [hred] at hred'
  simp only [Except.ok.injEq, Prod.mk.injEq] at hred'
  obtain ⟨he, hu2⟩ := hred'
  subst he
  subst hu2
  subst hresp
  rfl

theorem metric_follows_reduction_witness :
    ((performClustering (.available ufitConst) henvAllZero reqRed).toOption.getD
        respDefault).params_used.hdbscan.metric
      = (if redPairC4.2.isSome then "euclidean"
         else reqRed.hdbscan_params.metric) :=
  metric_follows_reduction (.available ufitConst) henvAllZero reqRed
    ((performClustering (.available ufitConst) henvAllZero reqRed).toOption.getD
      respDefault)
    redPairC4.1 redPairC4.2 (by rfl) (by rfl)

/-! ## C6: when the reduction runs, and with which arguments -/

/-- Three 1-dimensional points with reduction enabled but the default
`n_components = 50 ≥ N = 3`: the reduction must be skipped. -/
def reqSkip : ClusteringRequest :=
  { embeddings := [[0], [0], [1]], image_ids := [7, 8, 9],
    umap_params := { enabled := true } }

/-- **C6.** Provided the reduction library is importable and its fit call
succeeds: the reduction runs iff `enabled ∧ N > n_components`; when it
runs the arguments are the clamped `min(n_components, D)` and
`min(n_neighbors, N-1)`; and whenever the stage reports "not used" the
response's `params_used["umap"]` is `null`. -/
theorem reduction_gating
    (up : UMAPParams) (embs : List (List ℚ))
    (fit : UMAPArgs → List (List ℚ) → Except String (List (List ℚ)))
    (r : List (List ℚ))
    (hfit : fit (effectiveUmapArgs up embs) embs = .ok r)
    (uenv : UmapEnv) (henv : HdbscanEnv) (req : ClusteringRequest)
    (resp : ClusteringResponse) (emb : List (List ℚ))
    (hred : reduceStage uenv req.umap_params req.embeddings = .ok (emb, none))
    (h : performClustering uenv henv req = .ok resp) :
    reduceStage (.available fit) up embs
      = (if up.enabled ∧ embs.length > up.n_components
         then .ok (r, some (effectiveUmapArgs up embs))
         else .ok (embs, none))
    ∧ (effectiveUmapArgs up embs).n_components
        = min up.n_components (vectorDim embs)
    ∧ (effectiveUmapArgs up embs).n_neighbors
        = min up.n_neighbors (embs.length - 1)
    ∧ resp.params_used.umap = none := by
  refine ⟨?_, rfl, rfl, ?_⟩
  · unfold reduceStage
    by_cases hc : up.enabled = true ∧ embs.length > up.n_components
    · rw [if_pos hc, if_pos hc]
      dsimp only
      rw [hfit]
    · rw [if_neg hc, if_neg hc]
  · obtain ⟨hlen, h2, emb', ua', lps, hred', hcl, hresp⟩ :=
      performClustering_ok_elim h
    rw [hred] at hred'
    simp only [Except.ok.injEq, Prod.mk.injEq] at hred'
    obtain ⟨he, hu2⟩ := hred'
    subst he
    subst hu2
    subst hresp
    rfl

theorem reduction_gating_witness :
    reduceStage (.available ufitConst) reqRed.umap_params reqRed.embeddings
      = (if reqRed.umap_params.enabled
            ∧ reqRed.embeddings.length > reqRed.umap_params.n_components
         then .ok ([[0, 0, 0], [0, 0, 0], [0, 0, 0], [0, 0, 0], [0, 0, 0]],
                some (effectiveUmapArgs reqRed.umap_params reqRed.embeddings))
         else .ok (reqRed.embeddings, none))
    ∧ (effectiveUmapArgs reqRed.umap_params reqRed.embeddings).n_components
        = min reqRed.umap_params.n_components (vectorDim reqRed.embeddings)
    ∧ (effectiveUmapArgs reqRed.umap_params reqRed.embeddings).n_neighbors
        = min reqRed.umap_params.n_neighbors (reqRed.embeddings.length - 1)
    ∧ ((performClustering .unavailable henvAllZero reqSkip).toOption.getD
        respDefault).params_used.umap = none :=
  reduction_gating reqRed.umap_params reqRed.embeddings ufitConst
    [[0, 0, 0], [0, 0, 0], [0, 0, 0], [0, 0, 0], [0, 0, 0]]
    (by rfl) .unavailable henvAllZero reqSkip
    ((performClustering .unavailable henvAllZero reqSkip).toOption.getD
      respDefault)
    reqSkip.embeddings (by rfl) (by rfl)

/-! ## C7: invalid-input handling on both paths -/

/-- Projection of a callback payload to the fields the ordering guarantees
are about. -/
def eventShape (e : CallbackPayload) : String × Nat :=
  (e.status, e.progress)

/-- Did the synchronous route reject the request with the 400
`InvalidInput` error? -/
def isInvalidInput : Except PipelineError ClusteringResponse → Bool
  | .error (.invalidInput _) => true
  | _ => false

/-- The record `submit_clustering` stores before scheduling the background
task (`clustering.py`, lines 210-219). -/
def taskInit : TaskRecord :=
  { status := "pending", progress := 0, message := "任务已提交",
    go_task_id := 1, callback_url := "http://go/callback",
    result := none, error := none }

/-- Mismatched lengths: two embeddings, one id. -/
def reqMismatch : ClusteringRequest :=
  { embeddings := [[0], [0]], image_ids := [1] }

/-- **C7, counterexample.** On the asynchronous path an invalid input does
NOT fail before any event: the runner first delivers the progress event
`("clustering", 10)` and only then the terminal failure. -/
theorem async_progress_before_validation_ce :
    ((runClusteringAsync .unavailable henvAllZero reqMismatch taskInit).2.map
        eventShape)
      = [("clustering", 10), ("failed", 0)] := by
  decide

/-- **C7, amended.** Invalid inputs (length mismatch or fewer than two
points) are rejected with `InvalidInput` before any stage on the
synchronous route, which emits no events at all; on the asynchronous path
the runner emits one progress event (`clustering`, 10) BEFORE validating,
then records the job as failed (surfacing the error through the job record
and the failure callback, not synchronously to the submitter). -/
theorem invalid_input_handling
    (uenv : UmapEnv) (henv : HdbscanEnv) (req : ClusteringRequest)
    (t : TaskRecord)
    (hbad : req.embeddings.length ≠ req.image_ids.length
      ∨ req.embeddings.length < 2) :
    isInvalidInput (performClustering uenv henv req) = true
    ∧ ((runClusteringAsync uenv henv req t).2.map eventShape
        = [("clustering", 10), ("failed", 0)])
    ∧ (runClusteringAsync uenv henv req t).1.status = "failed" := by
  by_cases h1 : req.embeddings.length ≠ req.image_ids.length
  · unfold performClustering runClusteringAsync
    rw [if_pos h1, if_pos h1]
    exact ⟨rfl, rfl, rfl⟩
  · have h2 : req.embeddings.length < 2 := hbad.resolve_left h1
    unfold performClustering runClusteringAsync
    rw [if_neg h1, if_neg h1, if_pos h2, if_pos h2]
    exact ⟨rfl, rfl, rfl⟩

theorem invalid_input_handling_witness :
    (reqMismatch.embeddings.length ≠ reqMismatch.image_ids.length
      ∨ reqMismatch.embeddings.length < 2)
    ∧ (isInvalidInput (performClustering .unavailable henvAllZero reqMismatch)
        = true
      ∧ ((runClusteringAsync .unavailable henvAllZero reqMismatch
            taskInit).2.map eventShape
          = [("clustering", 10), ("failed", 0)])
      ∧ (runClusteringAsync .unavailable henvAllZero reqMismatch
          taskInit).1.status = "failed") :=
  ⟨Or.inl (by decide),
   invalid_input_handling .unavailable henvAllZero reqMismatch taskInit
     (Or.inl (by decide))⟩

/-! ## C8: reduction failures -/

/-- A reducer whose fit call raises a non-ImportError exception. -/
def ufitBoom : UMAPArgs → List (List ℚ) → Except String (List (List ℚ)) :=
  fun _ _ => .error "umap 运行时错误"

/-- **C8, counterexample.** A runtime failure of the reduction library is
NOT a non-fatal degrade: only `ImportError` is caught, so a reducer
exception fails the async job and surfaces as a 500 on the synchronous
route. -/
theorem reduction_runtime_error_fails_ce :
    (runClusteringAsync (.available ufitBoom) henvAllZero reqRed
        taskInit).1.status = "failed"
    ∧ performClustering (.available ufitBoom) henvAllZero reqRed
        = .error (.internalError "umap 运行时错误") := by
  exact ⟨by decide, by rfl⟩

/-- **C8, amended.** Only UNAVAILABILITY of the reduction library (the
`ImportError` branch) is the non-fatal degrade: the stage returns the
original vectors marked not-used, the pipeline continues with the caller's
original metric, `params_used["umap"]` is `null`, and the async job still
completes; any other reducer exception propagates and fails the
invocation/job (see the counterexample). -/
theorem reduction_unavailable_fallback
    (henv : HdbscanEnv) (req : ClusteringRequest) (t : TaskRecord)
    (lps : List (Int × ℚ))
    (hreq : req.umap_params.enabled = true
      ∧ req.embeddings.length > req.umap_params.n_components)
    (hlen : req.embeddings.length = req.image_ids.length)
    (h2 : 2 ≤ req.embeddings.length)
    (hcl : henv (effectiveHdbscanArgs req.hdbscan_params
        req.embeddings.length false) req.embeddings = .ok lps) :
    reduceStage .unavailable req.umap_params req.embeddings
      = .ok (req.embeddings, none)
    ∧ performClustering .unavailable henv req
        = .ok (assembleResponse req.image_ids lps
            (effectiveHdbscanArgs req.hdbscan_params req.embeddings.length false)
            none)
    ∧ (assembleResponse req.image_ids lps
        (effectiveHdbscanArgs req.hdbscan_params req.embeddings.length false)
        none).params_used.umap = none
    ∧ (assembleResponse req.image_ids lps
        (effectiveHdbscanArgs req.hdbscan_params req.embeddings.length false)
        none).params_used.hdbscan.metric = req.hdbscan_params.metric
    ∧ (runClusteringAsync .unavailable henv req t).1.status = "completed"
    ∧ (runClusteringAsync .unavailable henv req t).1.progress = 100 := by
  have hne : ¬req.embeddings.length ≠ req.image_ids.length := not_ne_iff.mpr hlen
  have hlt : ¬req.embeddings.length < 2 := by omega
  have hred0 : reduceStage .unavailable req.umap_params req.embeddings
      = .ok (req.embeddings, none) := by
    unfold reduceStage
    rw [if_pos hreq]
  have hsync : performClustering .unavailable henv req
      = .ok (assembleResponse req.image_ids lps
          (effectiveHdbscanArgs req.hdbscan_params req.embeddings.length false)
          none) := by
    unfold performClustering
    rw [if_neg hne, if_neg hlt, hred0]
    dsimp only
    simp only [Option.isSome_none]
    rw [hcl]
    rfl
  have hasync : runClusteringAsync .unavailable henv req t
      = ((reportCompletion
            (reportProgress
              (reportProgress
                (reportProgress
                  (reportProgress t "clustering" 10 "开始聚类计算").1
                  "clustering" 30 "UMAP 降维中").1
                "clustering" 60 "HDBSCAN 聚类中").1
              "clustering" 90 "整理聚类结果").1
            (assembleResponse req.image_ids lps
              (effectiveHdbscanArgs req.hdbscan_params req.embeddings.length
                false) none)).1,
          [(reportProgress t "clustering" 10 "开始聚类计算").2,
           (reportProgress
              (reportProgress t "clustering" 10 "开始聚类计算").1
              "clustering" 30 "UMAP 降维中").2,
           (reportProgress
              (reportProgress
                (reportProgress t "clustering" 10 "开始聚类计算").1
                "clustering" 30 "UMAP 降维中").1
              "clustering" 60 "HDBSCAN 聚类中").2,
           (reportProgress
              (reportProgress
                (reportProgress
                  (reportProgress t "clustering" 10 "开始聚类计算").1
                  "clustering" 30 "UMAP 降维中").1
                "clustering" 60 "HDBSCAN 聚类中").1
              "clustering" 90 "整理聚类结果").2,
           (reportCompletion
              (reportProgress
                (reportProgress
                  (reportProgress
                    (reportProgress t "clustering" 10 "开始聚类计算").1
                    "clustering" 30 "UMAP 降维中").1
                  "clustering" 60 "HDBSCAN 聚类中").1
                "clustering" 90 "整理聚类结果").1
              (assembleResponse req.image_ids lps
                (effectiveHdbscanArgs req.hdbscan_params
                  req.embeddings.length false) none)).2]) := by
    unfold runClusteringAsync
    rw [if_neg hne, if_neg hlt, if_pos hreq, hred0]
    dsimp only
    simp only [Option.isSome_none]
    rw [hcl]
    rfl
  refine ⟨hred0, hsync, rfl, rfl, ?_, ?_⟩ <;> rw [hasync] <;> rfl

/-- The all-zero label/probability list on `reqRed`'s five points. -/
def lpsRed : List (Int × ℚ) :=
  reqRed.embeddings.map fun _ => ((0 : Int), (1 : ℚ))

theorem reduction_unavailable_fallback_witness :
    reduceStage .unavailable reqRed.umap_params reqRed.embeddings
      = .ok (reqRed.embeddings, none)
    ∧ performClustering .unavailable henvAllZero reqRed
        = .ok (assembleResponse reqRed.image_ids lpsRed
            (effectiveHdbscanArgs reqRed.hdbscan_params
              reqRed.embeddings.length false) none)
    ∧ (assembleResponse reqRed.image_ids lpsRed
        (effectiveHdbscanArgs reqRed.hdbscan_params
          reqRed.embeddings.length false) none).params_used.umap = none
    ∧ (assembleResponse reqRed.image_ids lpsRed
        (effectiveHdbscanArgs reqRed.hdbscan_params
          reqRed.embeddings.length false) none).params_used.hdbscan.metric
        = reqRed.hdbscan_params.metric
    ∧ (runClusteringAsync .unavailable henvAllZero reqRed
        taskInit).1.status = "completed"
    ∧ (runClusteringAsync .unavailable henvAllZero reqRed
        taskInit).1.progress = 100 :=
  reduction_unavailable_fallback henvAllZero reqRed taskInit lpsRed
    (by decide) (by decide) (by decide) (by rfl)

/-! ## C9: progress-event ordering -/

/-- Projection of a streamed `ProgressInfo` to `(status, progress)`. -/
def infoShape (e : ProgressInfo) : String × Nat :=
  (e.status, e.progress)

def isTerminalStatus (s : String) : Bool :=
  s == "completed" || s == "failed"

def nonDecreasingNat : List Nat → Bool
  | a :: b :: rest => Nat.ble a b && nonDecreasingNat (b :: rest)
  | _ => true

/-- The amended per-job delivery guarantee, checked on
`(status, progress)` shapes: the sequence is non-empty; everything before
the last event is non-terminal with non-decreasing progress; the last
event is the unique terminal one; a `completed` terminal keeps the whole
sequence non-decreasing (it carries 100), while a `failed` terminal
carries the literal progress `0`. -/
def progressSeqOkB (l : List (String × Nat)) : Bool :=
  match l.getLast? with
  | none => false
  | some last =>
    isTerminalStatus last.1
    && l.dropLast.all (fun e => !(isTerminalStatus e.1))
    && nonDecreasingNat (l.dropLast.map Prod.snd)
    && (if last.1 == "completed" then nonDecreasingNat (l.map Prod.snd)
        else last.2 == 0)

/-- A clusterer oracle that always raises. -/
def henvBoom : HdbscanEnv :=
  fun _ _ => .error "hdbscan 内部错误"

/-- A minimal valid two-point request with reduction disabled. -/
def reqPair : ClusteringRequest :=
  { embeddings := [[0], [1]], image_ids := [1, 2] }

/-- **C9, counterexample.** When the clusterer fails after the 10% and 60%
checkpoints, the delivered progress values are `[10, 60, 0]` — the
terminal `failed` callback carries the literal progress `0`, so the
sequence is not monotonically non-decreasing. -/
theorem failed_event_progress_zero_ce :
    ((runClusteringAsync .unavailable henvBoom reqPair taskInit).2.map
        fun e => e.progress) = [10, 60, 0]
    ∧ nonDecreasingNat ((runClusteringAsync .unavailable henvBoom reqPair
        taskInit).2.map fun e => e.progress) = false
    ∧ ¬ (60 ≤ (0 : Nat)) := by
  exact ⟨by decide, by decide, by decide⟩

/-- **C9, amended.** Through both delivery strategies (async HTTP-callback
runner and the gRPC stream built on the collecting sink), every job
delivers exactly one terminal event, always last; the non-terminal
progress values before it are non-decreasing; a completed terminal
carries 100 (so the whole sequence is non-decreasing), but a failed
terminal carries progress 0 (so on the failure path the full sequence is
not non-decreasing whenever any progress event preceded it). -/
theorem progress_event_invariant
    (uenv : UmapEnv) (henv : HdbscanEnv) (req : ClusteringRequest)
    (t : TaskRecord)
    (ufit : UMAPArgs → List (List ℚ) → Except String (List (List ℚ)))
    (henv2 : HdbscanEnv) (embeddings : List (List ℚ)) (image_ids : List Int)
    (hp : ServiceHDBSCANParams) (up : UMAPParams) :
    progressSeqOkB ((runClusteringAsync uenv henv req t).2.map eventShape) = true
    ∧ progressSeqOkB
        ((clusterStreamEvents ufit henv2 embeddings image_ids hp up).map
          infoShape) = true := by
  constructor
  · unfold runClusteringAsync
    by_cases h1 : req.embeddings.length ≠ req.image_ids.length
    · rw [if_pos h1]
      rfl
    rw [if_neg h1]
    by_cases h2 : req.embeddings.length < 2
    · rw [if_pos h2]
      rfl
    rw [if_neg h2]
    by_cases hu : req.umap_params.enabled = true
        ∧ req.embeddings.length > req.umap_params.n_components
    · rw [if_pos hu]
      cases uenv with
      | unavailable =>
        have hr : reduceStage .unavailable req.umap_params req.embeddings
            = .ok (req.embeddings, none) := by
          unfold reduceStage
          rw [if_pos hu]
        rw [hr]
        dsimp only
        cases hcl : henv (effectiveHdbscanArgs req.hdbscan_params
            req.embeddings.length (none : Option UMAPArgs).isSome)
            req.embeddings with
        | error e => rfl
        | ok lps => rfl
      | available fit =>
        cases hfit : fit (effectiveUmapArgs req.umap_params req.embeddings)
            req.embeddings with
        | error e =>
          have hr : reduceStage (.available fit) req.umap_params req.embeddings
              = .error e := by
            unfold reduceStage
            rw [if_pos hu]
            dsimp only
            rw [hfit]
          rw [hr]
          rfl
        | ok r =>
          have hr : reduceStage (.available fit) req.umap_params req.embeddings
              = .ok (r, some (effectiveUmapArgs req.umap_params req.embeddings)) := by
            unfold reduceStage
            rw [if_pos hu]
            dsimp only
            rw [hfit]
          rw [hr]
          dsimp only
          cases hcl : henv (effectiveHdbscanArgs req.hdbscan_params r.length
              (some (effectiveUmapArgs req.umap_params req.embeddings)).isSome)
              r with
          | error e => rfl
          | ok lps => rfl
    · rw [if_neg hu]
      have hr : reduceStage uenv req.umap_params req.embeddings
          = .ok (req.embeddings, none) := by
        unfold reduceStage
        rw [if_neg hu]
      rw [hr]
      dsimp only
      cases hcl : henv (effectiveHdbscanArgs req.hdbscan_params
          req.embeddings.length (none : Option UMAPArgs).isSome)
          req.embeddings with
      | error e => rfl
      | ok lps => rfl
  · unfold clusterStreamEvents serviceCluster
    by_cases h1 : embeddings.length ≠ image_ids.length
    · rw [if_pos h1]
      rfl
    rw [if_neg h1]
    by_cases h2 : embeddings.length < 2
    · rw [if_pos h2]
      rfl
    rw [if_neg h2]
    by_cases hu : up.enabled = true ∧ embeddings.length > up.n_components
    · rw [if_pos hu]
      cases hfit : ufit (effectiveUmapArgs up embeddings) embeddings with
      | error e => rfl
      | ok emb =>
        dsimp only
        unfold serviceClusterTail
        cases hcl : henv2 (serviceHdbscanArgs hp emb.length) emb with
        | error e => rfl
        | ok lps => rfl
    · rw [if_neg hu]
      unfold serviceClusterTail
      cases hcl : henv2 (serviceHdbscanArgs hp embeddings.length) embeddings with
      | error e => rfl
      | ok lps => rfl

/-! ## C10: what `report_failure` mutates -/

/-- **C10.** `report_failure` mutates only the stored record's `status`,
`error` and `message` — `progress`, `result`, `go_task_id` and
`callback_url` keep their previous values, so a poll through
`get_clustering_status` on a failed job returns the progress of the last
checkpoint reached before the error — while the callback payload it POSTs
reports the literal progress `0`. -/
theorem report_failure_frame (t : TaskRecord) (e task_id : String) :
    (reportFailure t e).1.progress = t.progress
    ∧ (reportFailure t e).1.result = t.result
    ∧ (reportFailure t e).1.go_task_id = t.go_task_id
    ∧ (reportFailure t e).1.callback_url = t.callback_url
    ∧ (reportFailure t e).1.status = "failed"
    ∧ (reportFailure t e).1.error = some e
    ∧ (reportFailure t e).1.message = "聚类失败: " ++ e
    ∧ (reportFailure t e).2.status = "failed"
    ∧ (reportFailure t e).2.progress = 0
    ∧ (reportFailure t e).2.error = some e
    ∧ getClusteringStatus [(task_id, (reportFailure t e).1)] task_id
        = .ok { task_id := task_id, status := "failed", progress := t.progress,
                message := "聚类失败: " ++ e, result := t.result,
                error := some e } := by
  refine ⟨rfl, rfl, rfl, rfl, rfl, rfl, rfl, rfl, rfl, rfl, ?_⟩
  simp [getClusteringStatus, reportFailure, List.lookup]
